import Mathlib

/-!
Verification of the GameLore AI credits/XP ledger and generation-request
lifecycle, shallowly embedded from `src/app.py` (the operative second
version of the file, lines 166-375).

Modelling conventions:
* SQL integer columns are `Int`; ids and the clock are `Nat`.
* The JSON badge list (`User.badges`, parsed and re-serialised by the code
  on every access) is a `List String`.
* External effects of one POST /generate request are an `Env` oracle:
  the Groq HTTP outcome (`none` models an exception or a non-200 status,
  in which case `generate_text_groq` returns its sentinel string), the
  timestamp the database assigns, and whether `db.session.commit()`
  succeeds.  All ledger changes and the record insert of one request sit
  in the single transaction committed at app.py:361, so a failed commit
  leaves the durable state unchanged.
-/

/-- Mirrors the `User` model (app.py:217-224): integer credits
(default 5), integer xp (default 0), `is_pro` flag, and the JSON-encoded
badge list. -/
structure User where
  id : Nat
  credits : Int
  xp : Int
  is_pro : Bool
  badges : List String
deriving DecidableEq, Repr

/-- Mirrors the `Generation` model (app.py:226-233). -/
structure Generation where
  id : Nat
  user_id : Nat
  type : String
  content : String
  image_url : String
  likes : Int
  timestamp : Nat
deriving DecidableEq, Repr

/-- The form fields read from `request.form` in `generate`
(app.py:335-341). -/
structure GenRequest where
  type : String
  genre : String
  details : String
deriving DecidableEq, Repr

/-- External-world oracle for one POST /generate request: the Groq call's
outcome (`some body` on HTTP 200, `none` on exception or error status),
the timestamp `datetime.utcnow` assigns to the new row, and whether the
closing `db.session.commit()` (app.py:361) succeeds. -/
structure Env where
  textOutcome : Option String
  clock : Nat
  commitOk : Bool
deriving DecidableEq, Repr

/-- Terminal outcome of one POST /generate request. -/
inductive GenResult where
  | outOfCredits : GenResult
  | committed : Generation → GenResult
  | persistenceFailed : GenResult
deriving DecidableEq, Repr

/-- Observable steps of the handler, in execution order, used to state
ordering claims. -/
inductive Event where
  | checkCredits : Event
  | invokeTextProducer : Event
  | invokeImageProducer : Event
  | debitCredit : Event
  | awardXpEv : Event
  | commitAttempt : Event
deriving DecidableEq, Repr

/-- Sentinel returned by `generate_text_groq` when the Groq call raises
or returns a non-200 status (app.py:273). -/
def groqFailText : String := "AI Generation failed."

/-- Mirrors `generate_text_groq` (app.py:244-273): the HTTP interaction
is the oracle; on 200 the body's message content is returned, on any
exception or other status the sentinel string is returned.  The function
never raises. -/
def generate_text_groq (outcome : Option String) : String :=
  match outcome with
  | some content => content
  | none => groqFailText

/-- ASCII characters `urllib.parse.quote` leaves unescaped with the
default `safe='/'`: ASCII letters, digits, `_ . - ~`, and `/`. -/
def quoteSafe (c : Char) : Bool :=
  c.isAlpha || c.isDigit || c = '_' || c = '.' || c = '-' || c = '~' || c = '/'

/-- Uppercase hexadecimal digit for a value below 16, as `quote` emits. -/
def hexDigit (n : Nat) : Char :=
  if n < 10 then Char.ofNat (48 + n) else Char.ofNat (55 + n)

/-- UTF-8 encoding of a Unicode scalar value, as `quote` applies to
non-safe characters before percent-escaping each byte. -/
def utf8Bytes (n : Nat) : List Nat :=
  if n < 0x80 then [n]
  else if n < 0x800 then [0xC0 + n / 64, 0x80 + n % 64]
  else if n < 0x10000 then
    [0xE0 + n / 4096, 0x80 + (n / 64) % 64, 0x80 + n % 64]
  else
    [0xF0 + n / 262144, 0x80 + (n / 4096) % 64,
     0x80 + (n / 64) % 64, 0x80 + n % 64]

/-- Percent-escape of one byte: `%` followed by two uppercase hex
digits. -/
def pctByte (b : Nat) : List Char :=
  ['%', hexDigit (b / 16), hexDigit (b % 16)]

/-- Encoding of a single character under `urllib.parse.quote`:
kept verbatim when safe, otherwise each UTF-8 byte percent-escaped. -/
def quoteChar (c : Char) : List Char :=
  if quoteSafe c then [c] else (utf8Bytes c.toNat).flatMap pctByte

/-- Mirrors `urllib.parse.quote(s)` with the default `safe='/'`. -/
def pyQuote (s : String) : String :=
  ⟨s.data.flatMap quoteChar⟩

/-- Fixed leading part of the Pollinations URL template (app.py:280). -/
def pollinationsHead : String := "https://image.pollinations.ai/prompt/"

/-- Fixed trailing part of the Pollinations URL template (app.py:280). -/
def pollinationsTail : String := "?width=512&height=512&nologo=true"

/-- Mirrors `generate_image_pollinations` (app.py:275-280): quotes a
fixed prompt built from the description and embeds it in the fixed URL
template.  No I/O, no failure branch. -/
def generate_image_pollinations (description : String) : String :=
  pollinationsHead
    ++ pyQuote ("concept art, high quality, video game asset, " ++ description)
    ++ pollinationsTail

/-- The description string `generate` passes to the image producer
(app.py:341): type, genre and the first 100 characters of the details,
space-separated. -/
def imageDescription (req : GenRequest) : String :=
  req.type ++ " " ++ req.genre ++ " " ++ req.details.take 100

/-- Mirrors `award_xp` (app.py:94-101), whose ledger logic the operative
`generate` inlines verbatim at app.py:347-352: add the amount to xp,
then append the badge "Scribe" when the new xp reaches 50 and the badge
is not already held.  No other badge exists in the code. -/
def award_xp (u : User) (amount : Int) : User :=
  let xp := u.xp + amount
  let badges :=
    if 50 ≤ xp ∧ "Scribe" ∉ u.badges then u.badges ++ ["Scribe"] else u.badges
  { u with xp := xp, badges := badges }

/-- Durable state and observations after one POST /generate request. -/
structure GenOutcome where
  user : User
  gens : List Generation
  nextId : Nat
  result : GenResult
  trace : List Event
deriving Repr

/-- Mirrors the POST branch of `generate` (app.py:326-363).
The credit gate at app.py:332-333 runs first; then the text producer
(app.py:338), then the image producer (app.py:341); then the credit
deduction for non-pro users (app.py:344-345), the inline XP/badge update
(app.py:347-352), and the record insert, all committed by the single
`db.session.commit()` at app.py:361 — so a failed commit rolls the whole
request back and a successful one applies everything together. -/
def generate (u : User) (gens : List Generation) (nextId : Nat)
    (req : GenRequest) (env : Env) : GenOutcome :=
  if ¬u.is_pro = true ∧ u.credits < 1 then
    ⟨u, gens, nextId, GenResult.outOfCredits, [Event.checkCredits]⟩
  else
    let text_content := generate_text_groq env.textOutcome
    let image_url := generate_image_pollinations (imageDescription req)
    let u1 := if u.is_pro then u else { u with credits := u.credits - 1 }
    let u2 := award_xp u1 10
    let g : Generation :=
      ⟨nextId, u.id, req.type, text_content, image_url, 0, env.clock⟩
    let trace :=
      [Event.checkCredits, Event.invokeTextProducer, Event.invokeImageProducer]
        ++ (if u.is_pro then [] else [Event.debitCredit])
        ++ [Event.awardXpEv, Event.commitAttempt]
    if env.commitOk then
      ⟨u2, gens ++ [g], nextId + 1, GenResult.committed g, trace⟩
    else
      ⟨u, gens, nextId, GenResult.persistenceFailed, trace⟩

/-- Newest-first comparison used by the dashboard query
(`order_by(Generation.timestamp.desc())`, app.py:323): record `a` may
come before record `b` when `a`'s timestamp is at least `b`'s. -/
def newerEq (a b : Generation) : Prop := b.timestamp ≤ a.timestamp

instance : DecidableRel newerEq := fun a b => Nat.decLe b.timestamp a.timestamp

instance : IsTotal Generation newerEq :=
  ⟨fun a b => (Nat.le_total b.timestamp a.timestamp).elim Or.inl Or.inr⟩

instance : IsTrans Generation newerEq :=
  ⟨fun _ _ _ h1 h2 => Nat.le_trans h2 h1⟩

/-- Mirrors the dashboard history query
`Generation.query.filter_by(user_id=...).order_by(Generation.timestamp.desc()).all()`
(app.py:323): the owner's rows, sorted by timestamp descending.  The sort
is stable, so rows with equal timestamps keep their table (insertion)
order, which is all a SQL `ORDER BY` with ties guarantees at most. -/
def listByOwner (gens : List Generation) (uid : Nat) : List Generation :=
  List.insertionSort newerEq (gens.filter (fun g => g.user_id == uid))

/-- Read of `gen.likes` for the row with the given id (app.py:368-369);
a missing row is never read by the handler (`get_or_404`), so the default
0 is irrelevant to the claims. -/
def getLikes (gens : List Generation) (gid : Nat) : Int :=
  match gens.find? (fun g => g.id == gid) with
  | some g => g.likes
  | none => 0

/-- Write of `gen.likes` for the row with the given id, as flushed by
`db.session.commit()` (app.py:369-370). -/
def setLikes (gens : List Generation) (gid : Nat) (v : Int) : List Generation :=
  gens.map (fun g => if g.id == gid then { g with likes := v } else g)

/-- One whole `like_content` request run without interference
(app.py:365-371): read the row's like count, write back one more. -/
def like_content (gens : List Generation) (gid : Nat) : List Generation :=
  setLikes gens gid (getLikes gens gid + 1)

/-- Progress of one in-flight `like_content` request: `gen.likes += 1`
is a read of the attribute followed by a write of the value computed
from that read, with the database update applied at commit. -/
inductive LikePC where
  | ready : LikePC
  | readDone : Int → LikePC
  | done : LikePC
deriving DecidableEq, Repr

/-- One scheduler step of an in-flight `like_content` request: the read
loads the row's current like count; the write stores the value computed
from the earlier read (not from the row's current state — exactly what
`gen.likes += 1` followed by commit does). -/
def likeThreadStep (gens : List Generation) (gid : Nat) :
    LikePC → List Generation × LikePC
  | LikePC.ready => (gens, LikePC.readDone (getLikes gens gid))
  | LikePC.readDone v => (setLikes gens gid (v + 1), LikePC.done)
  | LikePC.done => (gens, LikePC.done)

/-- Interleaved execution of two concurrent `like_content` requests on
the same record under a schedule: `false` steps the first caller,
`true` the second. -/
def likeExec (gid : Nat) :
    List Generation × LikePC × LikePC → List Bool → List Generation × LikePC × LikePC
  | s, [] => s
  | (gens, t0, t1), b :: rest =>
      if b then
        let p := likeThreadStep gens gid t1
        likeExec gid (p.1, t0, p.2) rest
      else
        let p := likeThreadStep gens gid t0
        likeExec gid (p.1, p.2, t1) rest

/-- Account states reachable in this code: a user row is created with
the configured defaults `credits=5, xp=0, is_pro=false, badges="[]"`
(app.py:221-224, app.py:305-309), and the only code that writes
credits, xp or badges afterwards is the POST /generate handler (the
like handler touches only `Generation.likes`, and nothing in this
source sets `is_pro` or adds credits). -/
inductive ReachableUser : User → Prop
  | init (id : Nat) : ReachableUser ⟨id, 5, 0, false, []⟩
  | step (u : User) (gens : List Generation) (nextId : Nat)
      (req : GenRequest) (env : Env) :
      ReachableUser u → ReachableUser ((generate u gens nextId req env).user)

/-- Position of the first occurrence of an event in a trace (length of
the trace when absent). -/
def idxOfEv : List Event → Event → Nat
  | [], _ => 0
  | e :: tr, a => if e = a then 0 else idxOfEv tr a + 1

/-- Whether a list of ids is in strictly descending order. -/
def strictDescBool : List Nat → Bool
  | [] => true
  | [_] => true
  | a :: b :: rest => decide (b < a) && strictDescBool (b :: rest)

/-! ## Small helper lemmas about the embedded operations -/

theorem award_xp_credits (u : User) (n : Int) :
    (award_xp u n).credits = u.credits := rfl

theorem award_xp_is_pro (u : User) (n : Int) :
    (award_xp u n).is_pro = u.is_pro := rfl

theorem award_xp_xp (u : User) (n : Int) :
    (award_xp u n).xp = u.xp + n := rfl

theorem award_xp_badges (u : User) (n : Int) :
    (award_xp u n).badges =
      if 50 ≤ u.xp + n ∧ "Scribe" ∉ u.badges
      then u.badges ++ ["Scribe"] else u.badges := rfl

theorem generate_rejected (u : User) (gens : List Generation)
    (nextId : Nat) (req : GenRequest) (env : Env)
    (hpro : u.is_pro = false) (hc : u.credits < 1) :
    generate u gens nextId req env =
      ⟨u, gens, nextId, GenResult.outOfCredits, [Event.checkCredits]⟩ := by
  simp [generate, hpro, hc]

theorem generate_credits_nonneg (u : User) (gens : List Generation)
    (nextId : Nat) (req : GenRequest) (env : Env) (h : 0 ≤ u.credits) :
    0 ≤ (generate u gens nextId req env).user.credits := by
  unfold generate
  by_cases hcond : ¬u.is_pro = true ∧ u.credits < 1
  · rw [if_pos hcond]
    exact h
  · rw [if_neg hcond]
    by_cases hok : env.commitOk
    · by_cases hpro : u.is_pro = true
      · simp [hok, hpro, award_xp_credits, h]
      · push_neg at hcond
        have h1 := hcond hpro
        simp [hok, hpro, award_xp_credits]
        omega
    · simp [hok, h]

/-! ## C1 -/

/-- C1: a non-subscribed account with fewer than one credit is rejected
by the gate at app.py:332-333 with the out-of-credits response: the
whole state (credits, xp, badges, records) is unchanged and the trace
contains no producer invocation. -/
theorem generate_insufficient_credits (u : User) (gens : List Generation)
    (nextId : Nat) (req : GenRequest) (env : Env)
    (hpro : u.is_pro = false) (hc : u.credits < 1) :
    generate u gens nextId req env =
      ⟨u, gens, nextId, GenResult.outOfCredits, [Event.checkCredits]⟩ ∧
    Event.invokeTextProducer ∉ (generate u gens nextId req env).trace ∧
    Event.invokeImageProducer ∉ (generate u gens nextId req env).trace := by
  have h := generate_rejected u gens nextId req env hpro hc
  refine ⟨h, ?_, ?_⟩ <;> rw [h] <;> simp

/-- Witness for C1 at a concrete zero-credit, non-subscribed account. -/
theorem generate_insufficient_credits_witness :
    generate ⟨1, 0, 0, false, []⟩ [] 0 ⟨"t", "g", "d"⟩ ⟨some "x", 0, true⟩ =
      ⟨⟨1, 0, 0, false, []⟩, [], 0, GenResult.outOfCredits, [Event.checkCredits]⟩ ∧
    Event.invokeTextProducer ∉
      (generate ⟨1, 0, 0, false, []⟩ [] 0 ⟨"t", "g", "d"⟩ ⟨some "x", 0, true⟩).trace ∧
    Event.invokeImageProducer ∉
      (generate ⟨1, 0, 0, false, []⟩ [] 0 ⟨"t", "g", "d"⟩ ⟨some "x", 0, true⟩).trace :=
  generate_insufficient_credits _ _ _ _ _ rfl (by decide)

/-! ## C5 -/

/-- C5 counterexample: the code has no "World Builder" badge.  An
account holding "Scribe" whose xp crosses 200 (here 190 + 10 = 200)
gains no badge, contradicting the claim that the 200 threshold awards
"World Builder". -/
theorem award_xp_no_world_builder_cex :
    (award_xp ⟨1, 0, 190, false, ["Scribe"]⟩ 10).xp = 200 ∧
    "World Builder" ∉ (award_xp ⟨1, 0, 190, false, ["Scribe"]⟩ 10).badges := by
  constructor
  · rfl
  · simp [award_xp]

/-- C5 (amended): `award_xp` adds the amount to xp and evaluates the
single threshold that exists in the code, 50 → "Scribe", adding it when
newly crossed and not already present; no other badge name is ever
added or removed. -/
theorem award_xp_threshold_spec (u : User) (amount : Int) :
    (award_xp u amount).xp = u.xp + amount ∧
    ("Scribe" ∈ (award_xp u amount).badges ↔
      ("Scribe" ∈ u.badges ∨ 50 ≤ u.xp + amount)) ∧
    (∀ b : String, b ≠ "Scribe" →
      (b ∈ (award_xp u amount).badges ↔ b ∈ u.badges)) := by
  refine ⟨rfl, ?_, ?_⟩
  · rw [award_xp_badges]
    by_cases hx : 50 ≤ u.xp + amount <;> by_cases hm : "Scribe" ∈ u.badges <;>
      simp [hx, hm]
  · intro b hb
    rw [award_xp_badges]
    by_cases hx : 50 ≤ u.xp + amount <;> by_cases hm : "Scribe" ∈ u.badges <;>
      simp [hx, hm, hb]

/-- Witness for C5's amended theorem at a concrete account. -/
theorem award_xp_threshold_spec_witness :
    (award_xp ⟨1, 5, 45, false, []⟩ 10).xp = 45 + 10 ∧
    ("Scribe" ∈ (award_xp ⟨1, 5, 45, false, []⟩ 10).badges ↔
      ("Scribe" ∈ ([] : List String) ∨ (50 : Int) ≤ 45 + 10)) ∧
    ("Gold" ∈ (award_xp ⟨1, 5, 45, false, []⟩ 10).badges ↔
      "Gold" ∈ ([] : List String)) :=
  ⟨(award_xp_threshold_spec ⟨1, 5, 45, false, []⟩ 10).1,
   (award_xp_threshold_spec ⟨1, 5, 45, false, []⟩ 10).2.1,
   (award_xp_threshold_spec ⟨1, 5, 45, false, []⟩ 10).2.2 "Gold" (by decide)⟩

/-! ## C6 -/

/-- C6: badge idempotence under replay.  An account already holding
"Scribe" never gains a second instance (its badge list is unchanged by
any further award); crossing the 50 threshold while not holding the
badge adds exactly one instance; and once the badge is present after an
award, re-applying the same delta leaves the badges unchanged. -/
theorem award_xp_replay_idempotent (u : User) (n : Int) :
    ("Scribe" ∈ u.badges → (award_xp u n).badges = u.badges) ∧
    ("Scribe" ∉ u.badges → 50 ≤ u.xp + n →
      (award_xp u n).badges.count "Scribe" = 1) ∧
    ("Scribe" ∈ (award_xp u n).badges →
      (award_xp (award_xp u n) n).badges = (award_xp u n).badges) := by
  refine ⟨?_, ?_, ?_⟩
  · intro hm
    rw [award_xp_badges]
    simp [hm]
  · intro hm hx
    rw [award_xp_badges]
    simp only [hx, hm, not_false_iff, and_self, if_true]
    rw [List.count_append]
    rw [List.count_eq_zero.mpr ?_]
    · rfl
    · simpa using hm
  · intro hm
    rw [award_xp_badges]
    simp [hm]

/-- Witness for C6: a fresh account crossing 50 gains exactly one
"Scribe"; an account already holding it is left unchanged. -/
theorem award_xp_replay_idempotent_witness :
    (award_xp ⟨1, 5, 40, false, []⟩ 10).badges.count "Scribe" = 1 ∧
    (award_xp ⟨1, 5, 60, false, ["Scribe"]⟩ 10).badges = ["Scribe"] :=
  ⟨(award_xp_replay_idempotent ⟨1, 5, 40, false, []⟩ 10).2.1 (by simp) (by decide),
   (award_xp_replay_idempotent ⟨1, 5, 60, false, ["Scribe"]⟩ 10).1 (by simp)⟩

/-! ## C7 -/

/-- C7: every account state reachable in this code has non-negative
credits (accounts start at the default 5 and the only debit happens in
an accepted request, which requires at least one credit), and a debit
that would drive credits negative is instead rejected before any
producer is invoked. -/
theorem credits_nonneg_invariant :
    (∀ u : User, ReachableUser u → 0 ≤ u.credits) ∧
    (∀ (u : User) (gens : List Generation) (nextId : Nat)
      (req : GenRequest) (env : Env),
      u.is_pro = false → u.credits - 1 < 0 →
      (generate u gens nextId req env).result = GenResult.outOfCredits ∧
      Event.invokeTextProducer ∉ (generate u gens nextId req env).trace ∧
      Event.invokeImageProducer ∉ (generate u gens nextId req env).trace) := by
  constructor
  · intro u h
    induction h with
    | init i => exact (by norm_num : (0 : Int) ≤ 5)
    | step u gens nextId req env _ ih =>
        exact generate_credits_nonneg u gens nextId req env ih
  · intro u gens nextId req env hpro hc
    have h := generate_rejected u gens nextId req env hpro (by omega)
    rw [h]
    refine ⟨rfl, ?_, ?_⟩ <;> simp

/-- Witness for C7: the default account is reachable with non-negative
credits, and a concrete zero-credit account is rejected with no
producer invoked. -/
theorem credits_nonneg_invariant_witness :
    (0 : Int) ≤ (⟨1, 5, 0, false, []⟩ : User).credits ∧
    (generate ⟨2, 0, 0, false, []⟩ [] 0 ⟨"t", "g", "d"⟩ ⟨none, 0, true⟩).result =
      GenResult.outOfCredits :=
  ⟨credits_nonneg_invariant.1 _ (ReachableUser.init 1),
   (credits_nonneg_invariant.2 ⟨2, 0, 0, false, []⟩ [] 0 ⟨"t", "g", "d"⟩
      ⟨none, 0, true⟩ rfl (by decide)).1⟩

/-! ## C2 -/

/-- C2: the record insert and the ledger updates of one request live in
the single transaction committed at app.py:361, so they apply together:
a failed commit leaves user and records exactly as before (full
rollback), the user's credits decrease only in runs whose record is in
the durable store, and a successful commit applies the debit, the XP
award and the record append together. -/
theorem generate_commit_atomic (u : User) (gens : List Generation)
    (nextId : Nat) (req : GenRequest) (env : Env) :
    ((generate u gens nextId req env).result = GenResult.persistenceFailed →
      (generate u gens nextId req env).user = u ∧
      (generate u gens nextId req env).gens = gens ∧
      (generate u gens nextId req env).nextId = nextId) ∧
    ((generate u gens nextId req env).user.credits < u.credits →
      ∃ g, (generate u gens nextId req env).result = GenResult.committed g ∧
        g ∈ (generate u gens nextId req env).gens) ∧
    (∀ g, (generate u gens nextId req env).result = GenResult.committed g →
      (generate u gens nextId req env).gens = gens ++ [g] ∧
      (generate u gens nextId req env).user.xp = u.xp + 10 ∧
      (generate u gens nextId req env).user.credits =
        (if u.is_pro = true then u.credits else u.credits - 1)) := by
  unfold generate
  by_cases hcond : ¬u.is_pro = true ∧ u.credits < 1
  · rw [if_pos hcond]
    refine ⟨?_, ?_, ?_⟩
    · intro h
      exact GenResult.noConfusion h
    · intro h
      exact absurd h (lt_irrefl _)
    · intro g h
      exact GenResult.noConfusion h
  · rw [if_neg hcond]
    by_cases hok : env.commitOk
    · simp only [hok, if_true]
      refine ⟨?_, ?_, ?_⟩
      · intro h
        exact GenResult.noConfusion h
      · intro _
        refine ⟨_, rfl, ?_⟩
        simp
      · intro g h
        have hg := GenResult.committed.inj h
        subst hg
        refine ⟨rfl, ?_, ?_⟩
        · by_cases hpro : u.is_pro = true <;> simp [hpro, award_xp_xp]
        · by_cases hpro : u.is_pro = true <;> simp [hpro, award_xp_credits]
    · simp only [hok, if_false]
      refine ⟨?_, ?_, ?_⟩
      · intro _
        exact ⟨rfl, rfl, rfl⟩
      · intro h
        exact absurd h (lt_irrefl _)
      · intro g h
        exact GenResult.noConfusion h

/-- Witness for C2 at concrete runs: a failed commit is fully rolled
back, and a run that debited the user has its record in the store. -/
theorem generate_commit_atomic_witness :
    ((generate ⟨1, 5, 0, false, []⟩ [] 0 ⟨"t", "g", "d"⟩ ⟨some "x", 0, false⟩).user =
        ⟨1, 5, 0, false, []⟩ ∧
      (generate ⟨1, 5, 0, false, []⟩ [] 0 ⟨"t", "g", "d"⟩ ⟨some "x", 0, false⟩).gens = []) ∧
    (∃ g, (generate ⟨1, 5, 0, false, []⟩ [] 0 ⟨"t", "g", "d"⟩
        ⟨some "x", 0, true⟩).result = GenResult.committed g ∧
      g ∈ (generate ⟨1, 5, 0, false, []⟩ [] 0 ⟨"t", "g", "d"⟩ ⟨some "x", 0, true⟩).gens) := by
  constructor
  · have h := (generate_commit_atomic ⟨1, 5, 0, false, []⟩ [] 0 ⟨"t", "g", "d"⟩
        ⟨some "x", 0, false⟩).1 (by decide)
    exact ⟨h.1, h.2.1⟩
  · exact (generate_commit_atomic ⟨1, 5, 0, false, []⟩ [] 0 ⟨"t", "g", "d"⟩
      ⟨some "x", 0, true⟩).2.1 (by decide)

/-! ## C3 -/

/-- C3 counterexample: in an accepted non-subscribed request the debit
event sits at position 3 of the trace, after both producer invocations
(positions 1 and 2) — the credit is not debited before the producers
run; only the entitlement check precedes them. -/
theorem debit_before_producers_cex :
    (generate ⟨1, 5, 0, false, []⟩ [] 0 ⟨"t", "g", "d"⟩
        ⟨some "x", 0, true⟩).result ≠ GenResult.outOfCredits ∧
    idxOfEv (generate ⟨1, 5, 0, false, []⟩ [] 0 ⟨"t", "g", "d"⟩
        ⟨some "x", 0, true⟩).trace Event.debitCredit = 3 ∧
    idxOfEv (generate ⟨1, 5, 0, false, []⟩ [] 0 ⟨"t", "g", "d"⟩
        ⟨some "x", 0, true⟩).trace Event.invokeTextProducer = 1 ∧
    idxOfEv (generate ⟨1, 5, 0, false, []⟩ [] 0 ⟨"t", "g", "d"⟩
        ⟨some "x", 0, true⟩).trace Event.invokeImageProducer = 2 ∧
    ¬ idxOfEv (generate ⟨1, 5, 0, false, []⟩ [] 0 ⟨"t", "g", "d"⟩
        ⟨some "x", 0, true⟩).trace Event.debitCredit <
      idxOfEv (generate ⟨1, 5, 0, false, []⟩ [] 0 ⟨"t", "g", "d"⟩
        ⟨some "x", 0, true⟩).trace Event.invokeTextProducer := by
  decide

/-- C3 (amended): for every accepted request the handler's observable
order is: entitlement check first, then the text and image producers,
then (for non-subscribed users) the credit debit, then the XP award and
the commit — i.e. the check precedes the producers but the debit is
applied after production and before the commit, not before the
producers. -/
theorem generate_event_order (u : User) (gens : List Generation)
    (nextId : Nat) (req : GenRequest) (env : Env)
    (hacc : (generate u gens nextId req env).result ≠ GenResult.outOfCredits) :
    (generate u gens nextId req env).trace =
      [Event.checkCredits, Event.invokeTextProducer, Event.invokeImageProducer]
        ++ (if u.is_pro = true then [] else [Event.debitCredit])
        ++ [Event.awardXpEv, Event.commitAttempt] ∧
    idxOfEv (generate u gens nextId req env).trace Event.checkCredits = 0 ∧
    (u.is_pro = false →
      idxOfEv (generate u gens nextId req env).trace Event.invokeTextProducer <
        idxOfEv (generate u gens nextId req env).trace Event.debitCredit ∧
      idxOfEv (generate u gens nextId req env).trace Event.invokeImageProducer <
        idxOfEv (generate u gens nextId req env).trace Event.debitCredit ∧
      idxOfEv (generate u gens nextId req env).trace Event.debitCredit <
        idxOfEv (generate u gens nextId req env).trace Event.commitAttempt) := by
  by_cases hcond : ¬u.is_pro = true ∧ u.credits < 1
  · exfalso
    apply hacc
    have hpro : u.is_pro = false := by
      rcases hcond with ⟨h1, _⟩
      simpa using h1
    rw [generate_rejected u gens nextId req env hpro hcond.2]
  · have htr : (generate u gens nextId req env).trace =
        [Event.checkCredits, Event.invokeTextProducer, Event.invokeImageProducer]
          ++ (if u.is_pro = true then [] else [Event.debitCredit])
          ++ [Event.awardXpEv, Event.commitAttempt] := by
      unfold generate
      rw [if_neg hcond]
      by_cases hok : env.commitOk <;> simp [hok]
    refine ⟨htr, ?_, ?_⟩
    · rw [htr]
      by_cases hpro : u.is_pro = true <;> simp [hpro, idxOfEv]
    · intro hpro
      rw [htr, hpro]
      simp [idxOfEv]

/-- Witness for C3's amended theorem: the concrete accepted request has
the check-producers-debit-commit trace, the producers preceding the
debit. -/
theorem generate_event_order_witness :
    (generate ⟨1, 5, 0, false, []⟩ [] 0 ⟨"t", "g", "d"⟩ ⟨some "x", 0, true⟩).trace =
      [Event.checkCredits, Event.invokeTextProducer, Event.invokeImageProducer,
       Event.debitCredit, Event.awardXpEv, Event.commitAttempt] ∧
    idxOfEv (generate ⟨1, 5, 0, false, []⟩ [] 0 ⟨"t", "g", "d"⟩
        ⟨some "x", 0, true⟩).trace Event.invokeTextProducer <
      idxOfEv (generate ⟨1, 5, 0, false, []⟩ [] 0 ⟨"t", "g", "d"⟩
        ⟨some "x", 0, true⟩).trace Event.debitCredit := by
  have h := generate_event_order ⟨1, 5, 0, false, []⟩ [] 0 ⟨"t", "g", "d"⟩
      ⟨some "x", 0, true⟩ (by decide)
  constructor
  · rw [h.1]
    rfl
  · exact (h.2.2 rfl).1

/-! ## C4 -/

/-- C4 counterexample: with every fallible producer failing (the Groq
call fails; the image producer has no failure branch at all), an
accepted request still awards the 10 XP, still debits the credit, and
commits a record whose content is the sentinel string — not an
unchanged-xp, empty-outputs outcome. -/
theorem xp_on_producer_failure_cex :
    (generate ⟨1, 5, 0, false, []⟩ [] 0 ⟨"t", "g", "d"⟩ ⟨none, 0, true⟩).user.xp = 10 ∧
    ¬ (generate ⟨1, 5, 0, false, []⟩ [] 0 ⟨"t", "g", "d"⟩ ⟨none, 0, true⟩).user.xp = 0 ∧
    ((generate ⟨1, 5, 0, false, []⟩ [] 0 ⟨"t", "g", "d"⟩ ⟨none, 0, true⟩).gens.map
        (fun g => g.content)) = [groqFailText] ∧
    groqFailText ≠ "" ∧
    (generate ⟨1, 5, 0, false, []⟩ [] 0 ⟨"t", "g", "d"⟩ ⟨none, 0, true⟩).user.credits = 4 := by
  refine ⟨rfl, by decide, rfl, by decide, rfl⟩

/-- C4 (amended): when the text producer fails (the only producer that
can fail; the image producer is total), an accepted request with a
successful commit still behaves exactly like a successful one: the
fixed 10 XP is awarded, the credit of a non-subscribed user is debited
and never refunded (the uniform policy the code applies to 100% of such
requests), and the committed record carries the sentinel text together
with the always-produced image URL — its outputs are not empty. -/
theorem generate_text_failure_spec (u : User) (gens : List Generation)
    (nextId : Nat) (req : GenRequest) (env : Env)
    (hacc : u.is_pro = true ∨ 1 ≤ u.credits)
    (hfail : env.textOutcome = none)
    (hok : env.commitOk = true) :
    ∃ g, (generate u gens nextId req env).result = GenResult.committed g ∧
      g.content = groqFailText ∧
      g.image_url = generate_image_pollinations (imageDescription req) ∧
      (generate u gens nextId req env).user.xp = u.xp + 10 ∧
      (generate u gens nextId req env).user.credits =
        (if u.is_pro = true then u.credits else u.credits - 1) ∧
      (generate u gens nextId req env).gens = gens ++ [g] := by
  have hcond : ¬(¬u.is_pro = true ∧ u.credits < 1) := by
    rcases hacc with h | h
    · simp [h]
    · intro hc
      omega
  unfold generate
  rw [if_neg hcond]
  simp only [hok, if_true, hfail]
  refine ⟨_, rfl, rfl, rfl, ?_, ?_, rfl⟩
  · by_cases hpro : u.is_pro = true <;> simp [hpro, award_xp_xp]
  · by_cases hpro : u.is_pro = true <;> simp [hpro, award_xp_credits]

/-- Witness for C4's amended theorem at a concrete failing-text run. -/
theorem generate_text_failure_spec_witness :
    ∃ g, (generate ⟨1, 5, 0, false, []⟩ [] 0 ⟨"t", "g", "d"⟩
        ⟨none, 0, true⟩).result = GenResult.committed g ∧
      g.content = groqFailText ∧
      g.image_url = generate_image_pollinations (imageDescription ⟨"t", "g", "d"⟩) ∧
      (generate ⟨1, 5, 0, false, []⟩ [] 0 ⟨"t", "g", "d"⟩ ⟨none, 0, true⟩).user.xp = 0 + 10 ∧
      (generate ⟨1, 5, 0, false, []⟩ [] 0 ⟨"t", "g", "d"⟩ ⟨none, 0, true⟩).user.credits =
        (if (⟨1, 5, 0, false, []⟩ : User).is_pro = true then 5 else 5 - 1) ∧
      (generate ⟨1, 5, 0, false, []⟩ [] 0 ⟨"t", "g", "d"⟩ ⟨none, 0, true⟩).gens = [] ++ [g] :=
  generate_text_failure_spec ⟨1, 5, 0, false, []⟩ [] 0 ⟨"t", "g", "d"⟩
    ⟨none, 0, true⟩ (Or.inr (by decide)) rfl rfl

/-! ## C8 -/

theorem orderedInsert_newerEq_append (a : Generation) (l : List Generation)
    (h : ∀ b ∈ l, ¬ newerEq a b) :
    l.orderedInsert newerEq a = l ++ [a] := by
  induction l with
  | nil => rfl
  | cons b l ih =>
      rw [List.orderedInsert, if_neg (h b (List.mem_cons_self b l)),
        ih (fun c hc => h c (List.mem_cons_of_mem b hc))]
      rfl

theorem insertionSort_strictAsc_reverse (l : List Generation)
    (h : l.Pairwise (fun a b => a.timestamp < b.timestamp)) :
    List.insertionSort newerEq l = l.reverse := by
  induction l with
  | nil => rfl
  | cons a l ih =>
      rcases List.pairwise_cons.mp h with ⟨ha, hl⟩
      rw [List.insertionSort, ih hl,
        orderedInsert_newerEq_append a l.reverse ?_, List.reverse_cons]
      intro b hb
      have hab := ha b (List.mem_reverse.mp hb)
      simp only [newerEq]
      omega

/-- C8 counterexample: two requests by the same owner committed with
equal timestamps (the clock did not advance between them, as
`datetime.utcnow` allows) come back from the dashboard query in
ascending id order, because the query sorts only by timestamp
(app.py:323) and ties carry no creation-order guarantee — so the ids
are not in strictly descending creation order. -/
theorem listByOwner_ties_cex :
    ((generate (generate ⟨7, 5, 0, false, []⟩ [] 0 ⟨"t", "g", "d"⟩
          ⟨some "x", 5, true⟩).user
        (generate ⟨7, 5, 0, false, []⟩ [] 0 ⟨"t", "g", "d"⟩
          ⟨some "x", 5, true⟩).gens
        (generate ⟨7, 5, 0, false, []⟩ [] 0 ⟨"t", "g", "d"⟩
          ⟨some "x", 5, true⟩).nextId
        ⟨"t", "g", "d"⟩ ⟨some "y", 5, true⟩).gens.map
      (fun g => g.timestamp)) = [5, 5] ∧
    (listByOwner
        (generate (generate ⟨7, 5, 0, false, []⟩ [] 0 ⟨"t", "g", "d"⟩
            ⟨some "x", 5, true⟩).user
          (generate ⟨7, 5, 0, false, []⟩ [] 0 ⟨"t", "g", "d"⟩
            ⟨some "x", 5, true⟩).gens
          (generate ⟨7, 5, 0, false, []⟩ [] 0 ⟨"t", "g", "d"⟩
            ⟨some "x", 5, true⟩).nextId
          ⟨"t", "g", "d"⟩ ⟨some "y", 5, true⟩).gens 7).map (fun g => g.id) = [0, 1] ∧
    strictDescBool [0, 1] = false := by
  refine ⟨rfl, rfl, rfl⟩

/-- C8 (amended): the dashboard query returns exactly the owner's
records sorted newest first by timestamp; when the owner's records were
appended with strictly increasing timestamps (so ids and timestamps
grow together), the result is their reverse, hence the ids come back in
strictly descending creation order and the count equals the number of
appended records. -/
theorem listByOwner_spec (gens : List Generation) (uid : Nat)
    (h : (gens.filter (fun g => g.user_id == uid)).Pairwise
      (fun a b => a.id < b.id ∧ a.timestamp < b.timestamp)) :
    listByOwner gens uid = (gens.filter (fun g => g.user_id == uid)).reverse ∧
    (listByOwner gens uid).length =
      (gens.filter (fun g => g.user_id == uid)).length ∧
    (∀ g, g ∈ listByOwner gens uid ↔ (g ∈ gens ∧ g.user_id = uid)) ∧
    (listByOwner gens uid).Pairwise
      (fun a b => b.id < a.id ∧ b.timestamp ≤ a.timestamp) := by
  have hrev : listByOwner gens uid =
      (gens.filter (fun g => g.user_id == uid)).reverse :=
    insertionSort_strictAsc_reverse _ (h.imp (fun hab => hab.2))
  refine ⟨hrev, ?_, ?_, ?_⟩
  · rw [hrev]
    simp
  · intro g
    rw [hrev]
    simp [List.mem_filter]
  · rw [hrev]
    rw [List.pairwise_reverse]
    exact h.imp (fun hab => ⟨hab.1, le_of_lt hab.2⟩)

/-- Witness for C8's amended theorem on a concrete three-record store
with two owners and increasing timestamps. -/
theorem listByOwner_spec_witness :
    listByOwner [⟨1, 7, "t", "a", "u", 0, 1⟩, ⟨2, 8, "t", "b", "u", 0, 2⟩,
        ⟨3, 7, "t", "c", "u", 0, 3⟩] 7 =
      [⟨3, 7, "t", "c", "u", 0, 3⟩, ⟨1, 7, "t", "a", "u", 0, 1⟩] ∧
    (listByOwner [⟨1, 7, "t", "a", "u", 0, 1⟩, ⟨2, 8, "t", "b", "u", 0, 2⟩,
        ⟨3, 7, "t", "c", "u", 0, 3⟩] 7).Pairwise
      (fun a b => b.id < a.id ∧ b.timestamp ≤ a.timestamp) := by
  have h := listByOwner_spec [⟨1, 7, "t", "a", "u", 0, 1⟩,
      ⟨2, 8, "t", "b", "u", 0, 2⟩, ⟨3, 7, "t", "c", "u", 0, 3⟩] 7 (by decide)
  exact ⟨h.1, h.2.2.2⟩

/-! ## C9 -/

/-- C9 (code bug): `gen.likes += 1; db.session.commit()` (app.py:369-370)
is a read of the attribute followed by a write of the value computed
from that read, not a single atomic increment.  Two concurrent callers
that both read before either writes (schedule caller0-read,
caller1-read, caller0-write, caller1-write) both complete, yet the
final count is 1, not prior + 2 — a lost update.  The serial schedule,
and the composition of two whole handler runs, do give 2, so the count
shortfall is precisely a concurrency artifact. -/
theorem incrementLike_lost_update :
    likeExec 1 ([⟨1, 7, "t", "c", "u", 0, 0⟩], LikePC.ready, LikePC.ready)
        [false, true, false, true] =
      ([⟨1, 7, "t", "c", "u", 1, 0⟩], LikePC.done, LikePC.done) ∧
    likeExec 1 ([⟨1, 7, "t", "c", "u", 0, 0⟩], LikePC.ready, LikePC.ready)
        [false, false, true, true] =
      ([⟨1, 7, "t", "c", "u", 2, 0⟩], LikePC.done, LikePC.done) ∧
    like_content (like_content [⟨1, 7, "t", "c", "u", 0, 0⟩] 1) 1 =
      [⟨1, 7, "t", "c", "u", 2, 0⟩] := by
  refine ⟨by decide, by decide, by decide⟩

/-! ## C10 -/

theorem char_toNat_lt (c : Char) : c.toNat < 1114112 := by
  rcases c.valid with h | ⟨_, h2⟩
  · exact Nat.lt_trans h (by norm_num)
  · exact h2

theorem utf8Bytes_lt (n : Nat) (h : n < 1114112) : ∀ b ∈ utf8Bytes n, b < 256 := by
  intro b hb
  unfold utf8Bytes at hb
  by_cases h1 : n < 128
  · simp [h1] at hb
    omega
  · by_cases h2 : n < 2048
    · simp [h1, h2] at hb
      rcases hb with hb | hb <;> omega
    · by_cases h3 : n < 65536
      · simp [h1, h2, h3] at hb
        rcases hb with hb | hb | hb <;> omega
      · simp [h1, h2, h3] at hb
        rcases hb with hb | hb | hb | hb <;> omega

theorem hexDigit_safe : ∀ n, n < 16 → quoteSafe (hexDigit n) = true := by decide

theorem pctByte_safe (b : Nat) (hb : b < 256) :
    ∀ c ∈ pctByte b, quoteSafe c = true ∨ c = '%' := by
  intro c hc
  simp only [pctByte, List.mem_cons, List.not_mem_nil, or_false] at hc
  rcases hc with hc | hc | hc
  · right
    exact hc
  · left
    rw [hc]
    exact hexDigit_safe _ (by omega)
  · left
    rw [hc]
    exact hexDigit_safe _ (by omega)

theorem quoteChar_safe (c : Char) : ∀ x ∈ quoteChar c, quoteSafe x = true ∨ x = '%' := by
  intro x hx
  unfold quoteChar at hx
  by_cases hs : quoteSafe c
  · simp [hs] at hx
    rw [hx]
    left
    exact hs
  · simp only [hs, if_false, Bool.false_eq_true, List.mem_flatMap] at hx
    rcases hx with ⟨b, hb, hxb⟩
    exact pctByte_safe b (utf8Bytes_lt c.toNat (char_toNat_lt c) b hb) x hxb

theorem pyQuote_safe (s : String) :
    ∀ x ∈ (pyQuote s).data, quoteSafe x = true ∨ x = '%' := by
  intro x hx
  have hd : (pyQuote s).data = s.data.flatMap quoteChar := rfl
  rw [hd] at hx
  rcases List.mem_flatMap.mp hx with ⟨c, _, hxc⟩
  exact quoteChar_safe c x hxc

/-- C10: the image producer is a pure function of its argument: it
embeds the percent-quoted fixed prompt in the fixed Pollinations URL
template (every character of the quoted prompt being URL-safe or a
percent escape), and in every run of the handler — whatever the
network oracle did to the text producer and whether or not the commit
succeeded — the committed record's image URL is exactly this function
of the request, so an image producer-failure outcome is impossible. -/
theorem image_producer_total_deterministic :
    (∀ d : String, generate_image_pollinations d =
      pollinationsHead
        ++ pyQuote ("concept art, high quality, video game asset, " ++ d)
        ++ pollinationsTail) ∧
    (∀ d : String,
      ∀ x ∈ (pyQuote ("concept art, high quality, video game asset, " ++ d)).data,
      quoteSafe x = true ∨ x = '%') ∧
    (∀ (u : User) (gens : List Generation) (nextId : Nat)
      (req : GenRequest) (env : Env) (g : Generation),
      (generate u gens nextId req env).result = GenResult.committed g →
      g.image_url = generate_image_pollinations (imageDescription req)) ∧
    (∀ (u : User) (gens : List Generation) (nextId : Nat)
      (req : GenRequest) (env : Env),
      (generate u gens nextId req env).result ≠ GenResult.outOfCredits →
      Event.invokeImageProducer ∈ (generate u gens nextId req env).trace) := by
  refine ⟨fun d => rfl, fun d => pyQuote_safe _, ?_, ?_⟩
  · intro u gens nextId req env g h
    unfold generate at h
    by_cases hcond : ¬u.is_pro = true ∧ u.credits < 1
    · rw [if_pos hcond] at h
      exact absurd h (by simp)
    · rw [if_neg hcond] at h
      by_cases hok : env.commitOk
      · simp only [hok, if_true] at h
        have hg := GenResult.committed.inj h
        subst hg
        rfl
      · simp only [hok, if_false] at h
        exact absurd h (by simp)
  · intro u gens nextId req env hacc
    by_cases hcond : ¬u.is_pro = true ∧ u.credits < 1
    · exfalso
      apply hacc
      have hpro : u.is_pro = false := by
        rcases hcond with ⟨h1, _⟩
        simpa using h1
      rw [generate_rejected u gens nextId req env hpro hcond.2]
    · unfold generate
      rw [if_neg hcond]
      by_cases hok : env.commitOk <;> simp [hok]

/-- Witness for C10 at a concrete committed run: its record's image URL
is the pure template applied to the request, and the image producer was
invoked. -/
theorem image_producer_total_deterministic_witness :
    (generate ⟨1, 5, 0, false, []⟩ [] 0 ⟨"t", "g", "d"⟩
        ⟨some "x", 0, true⟩).gens.map (fun g => g.image_url) =
      [generate_image_pollinations (imageDescription ⟨"t", "g", "d"⟩)] ∧
    Event.invokeImageProducer ∈ (generate ⟨1, 5, 0, false, []⟩ [] 0
        ⟨"t", "g", "d"⟩ ⟨some "x", 0, true⟩).trace := by
  have h := image_producer_total_deterministic.2.2.1 ⟨1, 5, 0, false, []⟩ [] 0
      ⟨"t", "g", "d"⟩ ⟨some "x", 0, true⟩
      ⟨0, 1, "t", generate_text_groq (some "x"),
        generate_image_pollinations (imageDescription ⟨"t", "g", "d"⟩), 0, 0⟩ rfl
  refine ⟨congrArg (fun x => [x]) h, ?_⟩
  exact image_producer_total_deterministic.2.2.2 ⟨1, 5, 0, false, []⟩ [] 0
    ⟨"t", "g", "d"⟩ ⟨some "x", 0, true⟩ (by decide)
